import Mathlib

/-!
# Corsie conversation-generation subsystem: a shallow embedding

This file embeds, in Lean, the parts of the Corsie repository that the
verification claims are about:

* `src/core/database.py`   — `DatabaseManager` (sessions/messages store,
  `get_messages`, `add_message`, `cleanup_old_data`);
* `src/core/session_manager.py` — `SessionManager.get_conversation_context`;
* `src/core/ai_client.py`  — `DeepSeekClient` / `OpenRouterClient`
  (`chat_completion`, `chat_completion_stream`) and `AIClientManager.get_client`;
* `src/gui/chat_widget.py` — `ChatWidget.send_message`,
  `ChatWidget.start_ai_response`, the `AIResponseThread` streaming loop,
  `ChatWidget.on_ai_response_finished`, `ChatWidget.on_ai_response_error`,
  `ChatWidget.stop_generation`, and `ChatWidget._check_and_start_renaming`.

Timestamps are modelled by list order (the store appends messages in
`datetime.now()` order, so `ORDER BY timestamp ASC` is append order).
Qt presentation details (styles, scrolling, printing) are not modelled; the
state carried is exactly the state the claims mention: the persistent store,
the `is_generating` flag, the input box, the streaming accumulator, the
content of the in-progress assistant bubble, and the client cache.
-/

namespace Corsie

/-! ## Python string primitives used by the source -/

/-- The whitespace characters recognised by Python's `str.strip()`
(ASCII subset, which is all the source ever feeds it). -/
def isPyWhitespace (c : Char) : Bool :=
  c = ' ' || c = '\t' || c = '\n' || c = '\x0d' || c = '\x0b' || c = '\x0c'

/-- Python `s.strip()`: drop leading and trailing whitespace. -/
def pyStrip (s : String) : String :=
  ⟨((s.data.dropWhile isPyWhitespace).reverse.dropWhile isPyWhitespace).reverse⟩

/-- Python `s.lower()` (ASCII case mapping, which covers every string the
source compares case-insensitively). -/
def pyLower (s : String) : String :=
  ⟨s.data.map Char.toLower⟩

/-- Python `s.split("/")`: split on every `'/'`, keeping empty segments
(`"".split("/") == [""]`, `"a//b".split("/") == ["a","","b"]`). -/
def splitSlashAux : List Char → List Char → List String
  | [], cur => [⟨cur.reverse⟩]
  | c :: cs, cur =>
      if c = '/' then ⟨cur.reverse⟩ :: splitSlashAux cs []
      else splitSlashAux cs (c :: cur)

def pySplitSlash (s : String) : List String :=
  splitSlashAux s.data []

/-- Python `s.startswith(p)`. -/
def pyStartsWith (s p : String) : Bool :=
  p.data.isPrefixOf s.data

/-- Concatenation of a list of fragments in delivery order. -/
def concatList : List String → String
  | [] => ""
  | c :: cs => c ++ concatList cs

/-! ## Data model (`src/core/database.py`)

`Session` keeps the fields the claims read: id, title, selected model string,
and system prompt.  A stored message row keeps its owning session id, role and
content; `Store.messages` is in timestamp (= append) order. -/

structure Session where
  id : String
  title : String
  ai_model : String
  system_prompt : String
  deriving Repr, DecidableEq

structure MsgRow where
  session_id : String
  role : String
  content : String
  deriving Repr, DecidableEq

structure Store where
  sessions : List Session
  messages : List MsgRow
  deriving Repr, DecidableEq

/-- `DatabaseManager.get_session` / `SessionManager.get_session`:
look the session up by id. -/
def getSession (st : Store) (sid : String) : Option Session :=
  st.sessions.find? (fun s => s.id = sid)

/-- `DatabaseManager.get_messages(session_id, limit, offset)`:
`SELECT * FROM messages WHERE session_id = ? ORDER BY timestamp ASC
LIMIT ? OFFSET ?`. -/
def get_messages (st : Store) (sid : String) (limit offset : Nat) : List MsgRow :=
  ((st.messages.filter (fun m => m.session_id = sid)).drop offset).take limit

/-- `DatabaseManager.add_message`: insert a new row (timestamp `now`, hence
appended at the end) and bump the session's `updated_at`. -/
def add_message (st : Store) (sid role content : String) : Store :=
  { st with messages := st.messages ++ [⟨sid, role, content⟩] }

/-! ## Conversation context (`SessionManager.get_conversation_context`) -/

/-- One `{"role": ..., "content": ...}` entry of the context list. -/
structure CtxMsg where
  role : String
  content : String
  deriving Repr, DecidableEq

/-- `SessionManager.get_conversation_context(session_id, max_messages=20)`:
prepend the system prompt when non-empty (Python truthiness), then extend with
the `user`/`assistant` rows among `get_session_messages(session_id,
limit=max_messages)` — note the query is `ORDER BY timestamp ASC LIMIT
max_messages`, i.e. the oldest `max_messages` rows. -/
def get_conversation_context (st : Store) (sid : String)
    (max_messages : Nat := 20) : List CtxMsg :=
  match getSession st sid with
  | none => []
  | some s =>
      (if s.system_prompt ≠ "" then [⟨"system", s.system_prompt⟩] else []) ++
        ((get_messages st sid max_messages 0).filter
            (fun m => m.role = "user" || m.role = "assistant")).map
          (fun m => ⟨m.role, m.content⟩)

/-- Modelled from the spec, for comparison with the code (§4.2 of the spec:
"`context` = system prompt (if any) prepended to the **most recent** N
user/assistant messages (N configurable, default 20), oldest first").
This takes the last N chat messages rather than the first N rows. -/
def spec_conversation_context (st : Store) (sid : String)
    (max_messages : Nat := 20) : List CtxMsg :=
  match getSession st sid with
  | none => []
  | some s =>
      let chat := (st.messages.filter (fun m => m.session_id = sid)).filter
        (fun m => m.role = "user" || m.role = "assistant")
      (if s.system_prompt ≠ "" then [⟨"system", s.system_prompt⟩] else []) ++
        (chat.drop (chat.length - max_messages)).map (fun m => ⟨m.role, m.content⟩)

/-! ## Model-string parsing (`ChatWidget.start_ai_response`, lines 485–493) -/

/-- The `provider, model = "deepseek", "deepseek-chat"` fallback. -/
def defaultProviderModel : String × String := ("deepseek", "deepseek-chat")

/-- `model_parts = session.ai_model.split("/")`; if at least two parts,
`provider = parts[0]`, and `model = "/".join(parts[1:])` when the provider is
(case-insensitively) `openrouter` and there are more than two parts, else
`model = parts[1]`; otherwise the default pair. -/
def parse_model (s : String) : String × String :=
  match pySplitSlash s with
  | provider :: second :: rest =>
      if pyLower provider = "openrouter" && !rest.isEmpty then
        (provider, String.intercalate "/" (second :: rest))
      else
        (provider, second)
  | _ => defaultProviderModel

/-! ## Provider Clients (`src/core/ai_client.py`) -/

/-- `AIResponse` of `src/core/ai_client.py`. -/
structure AIResponse where
  content : String
  model : String
  error : Option String := none
  finish_reason : Option String := none
  deriving Repr, DecidableEq

/-- A deterministic stub backend for one streaming call: the sequence of
`delta.content` fields of the chunks the wire yields (`none` models a chunk
whose delta has no content), plus an optional exception raised by the
transport after the chunks (`str(e)` of the Python exception). -/
structure StubBackend where
  deltas : List (Option String)
  failure : Option String := none
  deriving Repr, DecidableEq

/-- `DeepSeekClient.chat_completion_stream`: yield `chunk.choices[0].delta.content`
for every chunk whose delta content is truthy (present and non-empty); on an
exception yield the single fragment `f"错误: {str(e)}"`. -/
def DeepSeekClient.chat_completion_stream (b : StubBackend) : List String :=
  (b.deltas.filterMap id).filter (fun c => c ≠ "") ++
    (match b.failure with
     | some e => ["错误: " ++ e]
     | none => [])

/-- `OpenRouterClient.chat_completion_stream`: identical consumption logic
(the two providers differ only in endpoint and extra headers). -/
def OpenRouterClient.chat_completion_stream (b : StubBackend) : List String :=
  (b.deltas.filterMap id).filter (fun c => c ≠ "") ++
    (match b.failure with
     | some e => ["错误: " ++ e]
     | none => [])

/-- `DeepSeekClient.chat_completion(..., stream=True)`: drain the streaming
variant, folding `full_content += chunk`, and return
`AIResponse(content=full_content, model=self.model, finish_reason="stop")`. -/
def DeepSeekClient.chat_completion_streaming (model : String) (b : StubBackend) :
    AIResponse :=
  { content := (DeepSeekClient.chat_completion_stream b).foldl (· ++ ·) ""
    model := model
    finish_reason := some "stop" }

/-- `OpenRouterClient.chat_completion(..., stream=True)`: same drain. -/
def OpenRouterClient.chat_completion_streaming (model : String) (b : StubBackend) :
    AIResponse :=
  { content := (OpenRouterClient.chat_completion_stream b).foldl (· ++ ·) ""
    model := model
    finish_reason := some "stop" }

/-! ## Client Registry (`AIClientManager`, `src/core/ai_client.py` 247–271) -/

inductive ClientKind where
  | deepseek
  | openrouter
  deriving Repr, DecidableEq

/-- A constructed provider client (`DeepSeekClient(api_key, model)` or
`OpenRouterClient(api_key, model)`). -/
structure Client where
  kind : ClientKind
  api_key : String
  model : String
  deriving Repr, DecidableEq

/-- `AIClientManager` state: the Secret Store lookup
(`config_manager.get_api_key`, which returns `None` for an unconfigured
provider and may return the empty string when decryption fails) and the
`_clients` cache keyed by `f"{provider}:{model}"`. -/
structure AIClientManager where
  get_api_key : String → Option String
  cache : List (String × Client)

/-- `AIClientManager.get_client(provider, model)`: return the cached client if
the key is present; else fetch the credential for `provider.lower()` — a
missing or falsy (empty) credential yields `None` with no construction and no
cache insertion; else construct the provider-specific client, cache it and
return it; an unknown provider also yields `None`. -/
def get_client (m : AIClientManager) (provider model : String) :
    Option Client × AIClientManager :=
  let key := provider ++ ":" ++ model
  match m.cache.lookup key with
  | some c => (some c, m)
  | none =>
      match m.get_api_key (pyLower provider) with
      | none => (none, m)
      | some k =>
          if k = "" then (none, m)
          else if pyLower provider = "deepseek" then
            let c : Client := ⟨.deepseek, k, model⟩
            (some c, { m with cache := (key, c) :: m.cache })
          else if pyLower provider = "openrouter" then
            let c : Client := ⟨.openrouter, k, model⟩
            (some c, { m with cache := (key, c) :: m.cache })
          else (none, m)

/-! ## The Generation Orchestrator (`ChatWidget`, `src/gui/chat_widget.py`)

The widget state carries exactly what the claims talk about: the
`is_generating` flag, the selected session, the input box text, the
`streaming_response` accumulator, the content shown in the in-progress
assistant bubble, the persistent store, and the client registry. -/

structure WidgetState where
  is_generating : Bool
  current_session_id : Option String
  user_input : String
  streaming_response : String
  /-- Content currently displayed in the in-flight assistant bubble
  (`current_ai_bubble`); `none` when no generation has produced a bubble. -/
  bubble : Option String
  store : Store
  registry : AIClientManager

/-- Externally observable actions of one `submit`, used to state "no side
effects" and "no network call". -/
inductive Event where
  | appendedUser (text : String)
  | clientUnavailable
  | openedStream (ctx : List CtxMsg) (temperature : ℚ) (max_tokens : ℕ)
  deriving Repr, DecidableEq

/-- `ChatWidget.start_ai_response`: bail out if already generating; load the
current session (`get_session(None)` and a vanished session both return
`None`, printing only); parse the model string; resolve a client via the
registry — on failure print "Failed to get AI client" and return; on success
flip `is_generating`, reset the accumulator, create the empty placeholder
bubble, and start `AIResponseThread`, which opens
`chat_completion_stream(messages=context, temperature=0.7, max_tokens=2048)`. -/
def start_ai_response (st : WidgetState) : WidgetState × List Event :=
  if st.is_generating then (st, [])
  else
    match st.current_session_id with
    | none => (st, [])
    | some sid =>
        match getSession st.store sid with
        | none => (st, [])
        | some session =>
            let pm := parse_model session.ai_model
            match get_client st.registry pm.1 pm.2 with
            | (none, reg) => ({ st with registry := reg }, [.clientUnavailable])
            | (some _, reg) =>
                let ctx := get_conversation_context st.store sid 20
                ({ st with
                    is_generating := true
                    streaming_response := ""
                    bubble := some ""
                    registry := reg },
                 [.openedStream ctx (7 / 10 : ℚ) 2048])

/-- `ChatWidget.send_message`: rejected as a pure no-op when a generation is
active, when the stripped input text is empty, or when no session is selected;
otherwise append the `user` message, clear the input box, and run
`start_ai_response`. -/
def send_message (st : WidgetState) : WidgetState × List Event :=
  if st.is_generating then (st, [])
  else
    let text := pyStrip st.user_input
    if text = "" then (st, [])
    else
      match st.current_session_id with
      | none => (st, [])
      | some sid =>
          let st1 : WidgetState :=
            { st with store := add_message st.store sid "user" text, user_input := "" }
          let r := start_ai_response st1
          (r.1, .appendedUser text :: r.2)

/-! ### Stream consumption (`AIResponseThread._get_response`) -/

inductive StreamOutcome where
  | finished (full : String)
  | errored (acc : String) (msg : String)
  deriving Repr, DecidableEq

/-- The `async for` loop of `AIResponseThread._get_response`: a truthy chunk
not starting with `"错误:"` is accumulated into `full_response` (and emitted);
a chunk starting with `"错误:"` emits `response_error` and stops; a falsy
(empty) chunk is skipped; stream exhaustion emits
`response_finished(full_response)`. -/
def consumeStream : List String → String → StreamOutcome
  | [], acc => .finished acc
  | c :: rest, acc =>
      if c ≠ "" && !(pyStartsWith c "错误:") then consumeStream rest (acc ++ c)
      else if pyStartsWith c "错误:" then .errored acc c
      else consumeStream rest acc

/-- `ChatWidget.on_ai_response_chunk`: `streaming_response += chunk` (the
bubble refresh it also performs is throttled presentation and carries the same
accumulator). -/
def on_ai_response_chunk (st : WidgetState) (chunk : String) : WidgetState :=
  { st with streaming_response := st.streaming_response ++ chunk }

/-- `ChatWidget.on_ai_response_finished(full_response)`: persist the assistant
message via `add_assistant_message` (a no-op returning `None` when no session
is selected), freeze the bubble at the full text, and return to idle. -/
def on_ai_response_finished (st : WidgetState) (full : String) : WidgetState :=
  let store' :=
    match st.current_session_id with
    | some sid => add_message st.store sid "assistant" full
    | none => st.store
  { st with store := store', bubble := some full, is_generating := false }

/-- `ChatWidget.on_ai_response_error(error)`: replace the bubble content with
`f"错误: {error}"`, persist nothing, and return to idle. -/
def on_ai_response_error (st : WidgetState) (e : String) : WidgetState :=
  { st with bubble := some ("错误: " ++ e), is_generating := false }

/-- One complete (uncancelled) generation over the fragments a client stream
yields: the widget first receives each accumulated chunk, then the terminal
signal dispatches to `on_ai_response_finished` or `on_ai_response_error`. -/
def run_generation (st : WidgetState) (fragments : List String) : WidgetState :=
  let withChunks :=
    (fragments.filter (fun c => c ≠ "" && !(pyStartsWith c "错误:"))).foldl
      on_ai_response_chunk st
  match consumeStream fragments "" with
  | .finished full => on_ai_response_finished withChunks full
  | .errored _ e => on_ai_response_error withChunks e

/-- The widget state after the thread has delivered the first `k` fragments of
the stream (each truthy non-error fragment reaches `on_ai_response_chunk`). -/
def deliverChunks (st : WidgetState) (fragments : List String) (k : Nat) :
    WidgetState :=
  ((fragments.take k).filter (fun c => c ≠ "" && !(pyStartsWith c "错误:"))).foldl
    on_ai_response_chunk st

/-- `ChatWidget.stop_generation`: terminate the worker thread and return to
idle — nothing is persisted, the bubble and accumulator are left as they
are. -/
def stop_generation (st : WidgetState) : WidgetState :=
  { st with is_generating := false }

/-! ### Auto-title trigger (`ChatWidget._check_and_start_renaming`) -/

/-- The `QTimer.singleShot(2000, ...)` delay before title synthesis. -/
def renameDelayMs : Nat := 2000

/-- `ChatWidget._check_and_start_renaming`: returns whether the delayed title
generation is scheduled — the current session must exist, its title must still
be the default `"新对话"`, and `len(get_session_messages(sid))` (query limit
100) must be exactly 2. -/
def shouldScheduleRename (store : Store) (sid : String) : Bool :=
  match getSession store sid with
  | none => false
  | some s =>
      if s.title ≠ "新对话" then false
      else (get_messages store sid 100 0).length = 2

/-- Total number of messages stored for a session (the claim's
"session's message count"). -/
def messageCount (store : Store) (sid : String) : Nat :=
  (store.messages.filter (fun m => m.session_id = sid)).length

/-! ## Cleanup by age (`DatabaseManager.cleanup_old_data`) -/

/-- The date part of `datetime.now()` after
`.replace(hour=0, minute=0, second=0, microsecond=0)`. -/
structure PyDate where
  year : Nat
  month : Nat
  day : Nat
  deriving Repr, DecidableEq

def isLeapYear (y : Nat) : Bool :=
  (y % 4 = 0 && y % 100 ≠ 0) || y % 400 = 0

/-- Length of a month, as `datetime.replace(day=...)` validates it. -/
def daysInMonth (y m : Nat) : Nat :=
  if m = 2 then (if isLeapYear y then 29 else 28)
  else if m = 4 || m = 6 || m = 9 || m = 11 then 30
  else 31

inductive CleanupError where
  /-- `ValueError: day is out of range for month`, raised by
  `cutoff_date.replace(day=cutoff_date.day - days)` before any SQL runs. -/
  | dayOutOfRange
  /-- `sqlite3.ProgrammingError`: the sessions `DELETE` statement has no
  placeholder yet is handed `(cutoff_date,)`; the connection context manager
  rolls the whole transaction back, so the earlier messages `DELETE` is
  undone as well. -/
  | bindingMismatch
  deriving Repr, DecidableEq

/-- `DatabaseManager.cleanup_old_data(days)`: compute
`cutoff_date.replace(day=cutoff_date.day - days)`; a day outside
`1..daysInMonth` raises `ValueError` before the database is touched; otherwise
the transaction starts, deletes old messages, and then dies on the
parameter-binding mismatch of the sessions `DELETE`, rolling everything back.
The returned store is the store as the caller observes it afterwards. -/
def cleanup_old_data (store : Store) (today : PyDate) (days : Int) :
    Except CleanupError (Nat × Nat) × Store :=
  if 1 ≤ (today.day : Int) - days ∧
      (today.day : Int) - days ≤ (daysInMonth today.year today.month : Int) then
    (.error .bindingMismatch, store)
  else
    (.error .dayOutOfRange, store)

/-! ## Concrete fixtures instantiating the theorems -/

/-- A registry over a Secret Store holding no credential at all. -/
def emptyRegistry : AIClientManager := ⟨fun _ => none, []⟩

/-- A freshly created default session. -/
def defaultSession : Session := ⟨"s", "新对话", "deepseek/deepseek-chat", ""⟩

/-- A store holding `defaultSession` with 21 chat messages `q0 … q20`
(append = timestamp order), so the context window question becomes visible. -/
def storeLong : Store :=
  ⟨[defaultSession], (List.range 21).map (fun i => ⟨"s", "user", "q" ++ toString i⟩)⟩

/-- A store holding `defaultSession` with a single user message. -/
def storeOneUser : Store := ⟨[defaultSession], [⟨"s", "user", "Hello"⟩]⟩

/-- A store holding `defaultSession` with one full exchange (2 messages). -/
def storeExchange : Store :=
  ⟨[defaultSession], [⟨"s", "user", "Hello"⟩, ⟨"s", "assistant", "Hi there"⟩]⟩

/-- A widget in the middle of a generation for `defaultSession` (the user
message is stored, the placeholder bubble is open, nothing accumulated yet). -/
def stGen : WidgetState :=
  ⟨true, some "s", "", "", some "", storeOneUser, emptyRegistry⟩

/-- An idle widget whose session names a provider (`acme`) with no stored
credential. -/
def stAcme : WidgetState :=
  ⟨false, some "s", "ping", "", none,
   ⟨[⟨"s", "新对话", "acme/foo", ""⟩], []⟩, emptyRegistry⟩

/-- An idle widget with pending input while a generation is (still) flagged
active. -/
def stBusy : WidgetState :=
  ⟨true, some "s", "hi", "", none, storeOneUser, emptyRegistry⟩

/-! # Verification

Helper lemmas first, then one theorem per claim (with a closed witness or
counterexample where required). -/

/-- `add_message` only appends a message row; session records (and hence
session lookup) are untouched. -/
theorem getSession_add_message (st : Store) (sid sid' role content : String) :
    getSession (add_message st sid' role content) sid = getSession st sid := rfl

/-- Folding chunk deliveries over the widget touches only the
`streaming_response` accumulator. -/
theorem chunkFoldl_store (l : List String) (st : WidgetState) :
    (l.foldl on_ai_response_chunk st).store = st.store := by
  induction l generalizing st with
  | nil => rfl
  | cons c rest ih => rw [List.foldl_cons]; exact ih _

theorem chunkFoldl_session (l : List String) (st : WidgetState) :
    (l.foldl on_ai_response_chunk st).current_session_id = st.current_session_id := by
  induction l generalizing st with
  | nil => rfl
  | cons c rest ih => rw [List.foldl_cons]; exact ih _

theorem chunkFoldl_streaming (l : List String) (st : WidgetState) :
    (l.foldl on_ai_response_chunk st).streaming_response =
      st.streaming_response ++ concatList l := by
  induction l generalizing st with
  | nil => simp [concatList, String.append_empty]
  | cons c rest ih =>
      rw [List.foldl_cons, ih]
      simp [on_ai_response_chunk, concatList, String.append_assoc]

/-- A stream with no error-prefixed fragment is drained to the end and
finishes with everything accumulated (empty fragments are skipped but
contribute nothing to the concatenation). -/
theorem consumeStream_clean (l : List String) (acc : String)
    (h : ∀ c ∈ l, pyStartsWith c "错误:" = false) :
    consumeStream l acc = .finished (acc ++ concatList l) := by
  induction l generalizing acc with
  | nil => simp [consumeStream, concatList, String.append_empty]
  | cons c rest ih =>
      have hc := h c (by simp)
      have hrest : ∀ x ∈ rest, pyStartsWith x "错误:" = false :=
        fun x hx => h x (by simp [hx])
      by_cases hce : c = ""
      · subst hce
        simpa [consumeStream, hc, concatList] using ih acc hrest
      · simp [consumeStream, hc, hce, ih _ hrest, concatList, String.append_assoc]

/-- The first error-prefixed fragment terminates consumption, carrying the
text accumulated up to it. -/
theorem consumeStream_error (pre : List String) (e : String) (post : List String)
    (acc : String)
    (hpre : ∀ c ∈ pre, pyStartsWith c "错误:" = false)
    (he : pyStartsWith e "错误:" = true) :
    consumeStream (pre ++ e :: post) acc = .errored (acc ++ concatList pre) e := by
  induction pre generalizing acc with
  | nil => simp [consumeStream, he, concatList, String.append_empty]
  | cons c rest ih =>
      have hc := hpre c (by simp)
      have hrest : ∀ x ∈ rest, pyStartsWith x "错误:" = false :=
        fun x hx => hpre x (by simp [hx])
      by_cases hce : c = ""
      · subst hce
        simpa [consumeStream, hc, concatList] using ih acc hrest
      · simp [consumeStream, hc, hce, ih _ hrest, concatList, String.append_assoc]

/-- A submit from an idle widget with non-blank input and a selected session
passes all the `send_message` guards: it is accepted (the event trace is
non-empty, beginning with the user-message append). -/
theorem send_message_accepted (w : WidgetState) (sid : String)
    (h1 : w.is_generating = false) (h2 : pyStrip w.user_input ≠ "")
    (h3 : w.current_session_id = some sid) :
    (send_message w).2 ≠ [] := by
  unfold send_message
  rw [h1, h3]
  simp [h2]

/-- Draining a fragment list with `full_content += chunk` concatenates it in
delivery order. -/
theorem foldl_append_concat (l : List String) (acc : String) :
    l.foldl (· ++ ·) acc = acc ++ concatList l := by
  induction l generalizing acc with
  | nil => simp [concatList, String.append_empty]
  | cons c rest ih =>
      rw [List.foldl_cons, ih]
      simp [concatList, String.append_assoc]

/-- C1: a `submit` issued while the session already has an active generation,
or whose input text strips to empty, or issued with no session selected, is
rejected as a pure no-op: the widget state (store, flags, cache, input box) is
returned unchanged and no observable action occurs — no message appended, no
client resolved, no stream opened. -/
theorem C1_submit_rejected_noop (st : WidgetState)
    (h : st.is_generating = true ∨ pyStrip st.user_input = "" ∨
         st.current_session_id = none) :
    send_message st = (st, []) := by
  rcases h with h | h | h
  · simp [send_message, h]
  · simp [send_message, h]
  · simp [send_message, h]

/-- C1 witness: a concrete busy widget rejects the submit unchanged. -/
theorem C1_witness : send_message stBusy = (stBusy, []) :=
  C1_submit_rejected_noop stBusy (Or.inl rfl)

/-- C2: model-string parsing splits on `/`; with fewer than 2 segments the
default pair `("deepseek", "deepseek-chat")` results; with the first segment
case-insensitively `openrouter` and more than 2 segments the model id is the
remaining segments rejoined with `/`; otherwise the provider is the first
segment and the model id exactly the second — including the three quoted
examples. -/
theorem C2_model_parsing :
    (∀ s p m rest, pySplitSlash s = p :: m :: rest →
      parse_model s =
        if pyLower p = "openrouter" ∧ rest ≠ [] then
          (p, String.intercalate "/" (m :: rest))
        else (p, m)) ∧
    (∀ s, (pySplitSlash s).length < 2 →
      parse_model s = ("deepseek", "deepseek-chat")) ∧
    parse_model "deepseek/deepseek-chat" = ("deepseek", "deepseek-chat") ∧
    parse_model "openrouter/anthropic/claude-3.5-sonnet" =
      ("openrouter", "anthropic/claude-3.5-sonnet") ∧
    parse_model "bogus" = ("deepseek", "deepseek-chat") := by
  refine ⟨?_, ?_, by decide, by decide, by decide⟩
  · intro s p m rest hsplit
    unfold parse_model
    rw [hsplit]
    by_cases h1 : pyLower p = "openrouter"
    · by_cases h2 : rest = []
      · subst h2; simp [h1]
      · simp [h1, h2, List.isEmpty_iff]
    · simp [h1]
  · intro s hlen
    unfold parse_model
    cases hsp : pySplitSlash s with
    | nil => rfl
    | cons x tail =>
        cases tail with
        | nil => rfl
        | cons y rest => rw [hsp] at hlen; simp at hlen; omega

/-- C2 witness: the general parsing rule applied at a concrete multi-segment
model string. -/
theorem C2_witness : parse_model "openrouter/a/b" = ("openrouter", "a/b") := by
  have h := C2_model_parsing.1 "openrouter/a/b" "openrouter" "a" ["b"] (by decide)
  have h2 : String.intercalate "/" ["a", "b"] = "a/b" := by decide
  rw [if_pos ⟨by decide, by decide⟩, h2] at h
  exact h

/-- C3: evaluation of the code at the failing input (a session with 21 stored
chat messages `q0 … q20`). `get_conversation_context` queries `ORDER BY
timestamp ASC LIMIT 20`, so it sends the *oldest* 20 messages: the context it
builds differs from the claimed one, omits the newest message `q20` — the
user's just-submitted turn — and retains the oldest `q0`, while the claimed
(most-recent-20) context contains `q20` and drops `q0`. -/
theorem C3_context_window_bug :
    get_conversation_context storeLong "s" 20 ≠
      spec_conversation_context storeLong "s" 20 ∧
    CtxMsg.mk "user" "q20" ∉ get_conversation_context storeLong "s" 20 ∧
    CtxMsg.mk "user" "q0" ∈ get_conversation_context storeLong "s" 20 ∧
    CtxMsg.mk "user" "q20" ∈ spec_conversation_context storeLong "s" 20 ∧
    CtxMsg.mk "user" "q0" ∉ spec_conversation_context storeLong "s" 20 := by
  exact ⟨by decide, by decide, by decide, by decide, by decide⟩

/-- C4 counterexample: starting from a concrete in-flight generation whose
stream has delivered the fragments `"Hi"` and `" there"`, cancelling
(`stop_generation`) persists nothing: the store still holds no assistant
message at all — in particular not one with content `"Hi there"` — refuting
the claim that the concatenation of the received fragments is persisted. -/
theorem C4_counterexample :
    (¬ ∃ m ∈ (stop_generation (deliverChunks stGen ["Hi", " there"] 2)).store.messages,
        m.role = "assistant" ∧ m.content = "Hi there") ∧
    (¬ ∃ m ∈ (stop_generation (deliverChunks stGen ["Hi", " there"] 2)).store.messages,
        m.role = "assistant") ∧
    (stop_generation (deliverChunks stGen ["Hi", " there"] 2)).streaming_response =
      "Hi there" := by
  exact ⟨by decide, by decide, by decide⟩

/-- C4 amended: cancelling a generation after any number of delivered
fragments leaves the persistent store unchanged (the concatenation of the
received fragments survives only in the in-memory accumulator), returns the
session to Idle, and a new submit with non-blank input is accepted
afterwards. -/
theorem C4_cancel_discards (st : WidgetState) (fragments : List String) (k : Nat)
    (h : st.is_generating = true) :
    (stop_generation (deliverChunks st fragments k)).store = st.store ∧
    (stop_generation (deliverChunks st fragments k)).is_generating = false ∧
    (stop_generation (deliverChunks st fragments k)).streaming_response =
      st.streaming_response ++
        concatList ((fragments.take k).filter
          (fun c => c ≠ "" && !(pyStartsWith c "错误:"))) ∧
    (∀ t sid, pyStrip t ≠ "" → st.current_session_id = some sid →
      (send_message { stop_generation (deliverChunks st fragments k) with
          user_input := t }).2 ≠ []) := by
  refine ⟨chunkFoldl_store _ _, rfl, chunkFoldl_streaming _ _, ?_⟩
  intro t sid ht hsid
  exact send_message_accepted _ sid rfl ht
    ((chunkFoldl_session ((fragments.take k).filter
      (fun c => c ≠ "" && !(pyStartsWith c "错误:"))) st).trans hsid)

/-- C4 amended witness: the cancelled concrete run of the counterexample,
through the general theorem. -/
theorem C4_witness :
    (stop_generation (deliverChunks stGen ["Hi", " there"] 2)).store = stGen.store ∧
    (stop_generation (deliverChunks stGen ["Hi", " there"] 2)).is_generating = false := by
  have h := C4_cancel_discards stGen ["Hi", " there"] 2 rfl
  exact ⟨h.1, h.2.1⟩

/-- C5 counterexample: a concrete generation that accumulates `"part"` and
then receives the terminal error fragment `"错误: boom"` persists nothing —
the store is unchanged and holds no assistant message, so no finalized message
with the accumulated text plus an error notice exists — and the bubble shows
only the error notice (the partial text is discarded from it). -/
theorem C5_counterexample :
    (run_generation stGen ["part", "错误: boom"]).store = stGen.store ∧
    (¬ ∃ m ∈ (run_generation stGen ["part", "错误: boom"]).store.messages,
        m.role = "assistant") ∧
    (run_generation stGen ["part", "错误: boom"]).bubble =
      some "错误: 错误: boom" := by
  exact ⟨by decide, by decide, by decide⟩

/-- C5 amended: every generation ending in a terminal error fragment persists
nothing: the store is unchanged, the in-progress bubble's content is replaced
by the visible error notice `"错误: " ++ e` (the accumulated partial text is
discarded), and the session returns to Idle. -/
theorem C5_error_discards (st : WidgetState) (fragments : List String)
    (acc e : String)
    (h : consumeStream fragments "" = .errored acc e) :
    (run_generation st fragments).store = st.store ∧
    (run_generation st fragments).bubble = some ("错误: " ++ e) ∧
    (run_generation st fragments).is_generating = false := by
  unfold run_generation
  rw [h]
  exact ⟨chunkFoldl_store _ _, rfl, rfl⟩

/-- C5 amended witness: the concrete errored run, through the general
theorem. -/
theorem C5_witness :
    (run_generation stGen ["part", "错误: boom"]).store = stGen.store ∧
    (run_generation stGen ["part", "错误: boom"]).bubble =
      some ("错误: " ++ "错误: boom") ∧
    (run_generation stGen ["part", "错误: boom"]).is_generating = false :=
  C5_error_discards stGen ["part", "错误: boom"] "part" "错误: boom" (by decide)

/-- C6: after a successful generation the delayed title-synthesis task
(fixed 2000 ms delay) is scheduled if and only if the session's title still
equals the default placeholder `"新对话"` and the session's message count is
exactly 2 — a 2-message session with a custom title is never auto-renamed, and
any other message count is never auto-renamed even with the default title. -/
theorem C6_rename_trigger (store : Store) (sid : String) (s : Session)
    (h : getSession store sid = some s) :
    renameDelayMs = 2000 ∧
    (shouldScheduleRename store sid = true ↔
      s.title = "新对话" ∧ messageCount store sid = 2) := by
  refine ⟨rfl, ?_⟩
  unfold shouldScheduleRename
  rw [h]
  by_cases ht : s.title = "新对话"
  · simp [ht, get_messages, messageCount, List.length_take]
    omega
  · simp [ht]

/-- C6 witness: a default-titled session with exactly one exchange schedules
the rename. -/
theorem C6_witness : shouldScheduleRename storeExchange "s" = true := by
  have h := C6_rename_trigger storeExchange "s" defaultSession (by decide)
  exact h.2.mpr ⟨rfl, by decide⟩

/-- C7: invoking either Provider Client's full-completion operation in
streaming mode returns as its content exactly the concatenation, in delivery
order, of the fragments its streaming operation yields on the same
deterministic backend (and the two providers' consumption logic agrees). -/
theorem C7_stream_reassembly (model : String) (b : StubBackend) :
    (DeepSeekClient.chat_completion_streaming model b).content =
      concatList (DeepSeekClient.chat_completion_stream b) ∧
    (OpenRouterClient.chat_completion_streaming model b).content =
      concatList (OpenRouterClient.chat_completion_stream b) ∧
    OpenRouterClient.chat_completion_stream b =
      DeepSeekClient.chat_completion_stream b := by
  refine ⟨?_, ?_, rfl⟩
  · exact foldl_append_concat _ ""
  · exact foldl_append_concat _ ""

/-- C8: with no stored credential for a provider (missing or empty secret) and
no cached client for the key, the registry's `get_client` returns `None`
without constructing or caching anything, and a submit whose session names
that provider aborts with the client-unavailable condition, opening no stream
(no network call) and leaving the widget state unchanged. -/
theorem C8_credential_missing (st : WidgetState) (sid : String)
    (session : Session) (provider model : String)
    (hgen : st.is_generating = false)
    (hsid : st.current_session_id = some sid)
    (hs : getSession st.store sid = some session)
    (hpm : parse_model session.ai_model = (provider, model))
    (hkey : st.registry.get_api_key (pyLower provider) = none ∨
            st.registry.get_api_key (pyLower provider) = some "")
    (hcache : st.registry.cache.lookup (provider ++ ":" ++ model) = none) :
    get_client st.registry provider model = (none, st.registry) ∧
    start_ai_response st = (st, [Event.clientUnavailable]) := by
  have hget : get_client st.registry provider model = (none, st.registry) := by
    unfold get_client
    rcases hkey with hk | hk <;> simp [hcache, hk]
  refine ⟨hget, ?_⟩
  obtain ⟨g, csid, ui, sr, bb, sto, reg⟩ := st
  dsimp only at hgen hsid hs hget ⊢
  subst hgen; subst hsid
  unfold start_ai_response
  simp [hs, hpm, hget]

/-- C8 witness: provider `acme` with no stored secret — absent client, and the
submit aborts without a stream. -/
theorem C8_witness :
    get_client emptyRegistry "acme" "foo" = (none, emptyRegistry) ∧
    start_ai_response stAcme = (stAcme, [Event.clientUnavailable]) :=
  C8_credential_missing stAcme "s" ⟨"s", "新对话", "acme/foo", ""⟩ "acme" "foo"
    rfl rfl (by decide) (by decide) (Or.inl rfl) rfl

/-- C9: in-band error detection — a stream whose fragments never begin with
the literal `"错误:"` finishes normally with every fragment accumulated in
order, while the first fragment beginning with `"错误:"` (whatever its
origin) terminates the generation as an error carrying exactly the text
accumulated before it. -/
theorem C9_inband_error_detection (fragments pre post : List String) (e : String) :
    ((∀ c ∈ fragments, pyStartsWith c "错误:" = false) →
      consumeStream fragments "" = .finished (concatList fragments)) ∧
    (fragments = pre ++ e :: post →
      (∀ c ∈ pre, pyStartsWith c "错误:" = false) →
      pyStartsWith e "错误:" = true →
      consumeStream fragments "" = .errored (concatList pre) e) := by
  constructor
  · intro h
    simpa using consumeStream_clean fragments "" h
  · rintro rfl hpre he
    simpa using consumeStream_error pre e post "" hpre he

/-- C9 witness: a legitimate fragment followed by an error-prefixed fragment
ends the generation in error, with only the earlier text accumulated. -/
theorem C9_witness :
    consumeStream ["ok", "错误: bad model"] "" = .errored "ok" "错误: bad model" := by
  have h := (C9_inband_error_detection ["ok", "错误: bad model"] ["ok"] []
    "错误: bad model").2 rfl (by decide) (by decide)
  exact h.trans (by decide)

/-- C10: `cleanup_old_data` computes its cutoff by subtracting `days` from the
day-of-month field, so whenever `days` is at least the current day-of-month it
raises `ValueError` before any SQL runs and the store is unchanged; the store
is never mutated by a failing run, and a successful (deleting) run is only
possible when `days` is strictly less than the current day-of-month. -/
theorem C10_cleanup_date_arithmetic (store : Store) (today : PyDate) (days : Int) :
    ((today.day : Int) ≤ days →
      cleanup_old_data store today days = (.error .dayOutOfRange, store)) ∧
    (cleanup_old_data store today days).2 = store ∧
    (∀ counts, (cleanup_old_data store today days).1 = .ok counts →
      days < (today.day : Int)) := by
  refine ⟨?_, ?_, ?_⟩
  · intro h
    unfold cleanup_old_data
    rw [if_neg]
    rintro ⟨h1, -⟩
    omega
  · unfold cleanup_old_data
    split <;> rfl
  · intro counts hcounts
    unfold cleanup_old_data at hcounts
    split at hcounts <;> simp at hcounts

/-- C10 witness: the default `days=90` on May 10 fails before deleting,
leaving an (empty) store untouched. -/
theorem C10_witness :
    cleanup_old_data ⟨[], []⟩ ⟨2024, 5, 10⟩ 90 =
      (.error .dayOutOfRange, (⟨[], []⟩ : Store)) :=
  (C10_cleanup_date_arithmetic ⟨[], []⟩ ⟨2024, 5, 10⟩ 90).1 (by decide)

end Corsie
